import Mathlib

/-!
Shallow embedding of the entity/physics composition layer of the pyxora
engine.  Namespace `Pyxora` embeds the maintained module `src/objects.py`
(classes `PhysicsManager`, `Objects`, `Object`); namespace `Legacy` embeds
the earlier draft `src/object.py` where the two differ (script hooks).

Modelling conventions:
* Python floats are modelled as rationals (`ℚ`); every arithmetic
  operation of the source is pure rational arithmetic, so this is exact.
* pymunk bodies, shapes and spaces are modelled by records; Python object
  identity of freshly allocated pymunk entities is modelled by explicit
  id counters (`body_id`, `shape_id`, `space_id`, `alloc`).
* Fallible Python code (attribute access on `None`, tuple/number type
  mismatches, raised errors) is modelled with `Option` / an explicit
  `raised` flag.
* Side effects on external collaborators (spatial reindexing, the physics
  solver, the renderer) are modelled as explicit event lists
  (`SpaceOp`, `UpdEvent`, `DrawCall`, `ScriptCall`).
-/

namespace Pyxora

/-- Body motion kind, mirroring `pymunk.Body.STATIC` / `pymunk.Body.DYNAMIC`. -/
inductive BodyType
  | STATIC
  | DYNAMIC
deriving DecidableEq, Inhabited

/-- A pymunk rigid body as used by `objects.py`: an identity (modelling
Python object identity of the allocated body) plus the fields the source
reads and writes (`body_type`, `position`). -/
structure Body where
  body_id : Nat
  body_type : BodyType
  position : ℚ × ℚ
deriving DecidableEq, Inhabited

/-- Geometry of a collision shape: `pymunk.Poly.create_box(body, size)`
or `pymunk.Circle(body, radius)`. -/
inductive ShapeGeom
  | box (w h : ℚ)
  | circle (r : ℚ)
deriving DecidableEq, Inhabited

/-- A pymunk collision shape with the properties `objects.py` sets on it
via `setattr` from the object's `physics` dict. -/
structure Shape where
  shape_id : Nat
  geom : ShapeGeom
  mass : ℚ
  friction : ℚ
  elasticity : ℚ
  collision_type : Nat
deriving DecidableEq, Inhabited

/-- The `size` argument of `Object.__init__`: the source passes a
(width, height) tuple for rectangles and a scalar radius for circles. -/
inductive SizeVal
  | pair (w h : ℚ)
  | scalar (r : ℚ)
deriving DecidableEq, Inhabited

/-- The `physics` dict built by `Object.add_physics`
(`mass`, `friction`, `elasticity`, `collision_type`). -/
structure PhysicsParams where
  mass : ℚ
  friction : ℚ
  elasticity : ℚ
  collision_type : Nat
deriving DecidableEq, Inhabited

/-- The visual representation (`wrapper.Image`) as used by `objects.py`:
only its position is read/written per frame; the constructor arguments
`custom_size` and `shape_type` are recorded for fidelity.  The asset
itself (user image or the engine icon) is external and not modelled. -/
structure Image where
  pos : ℚ × ℚ
  custom_size : SizeVal
  shape_type : Nat
deriving DecidableEq, Inhabited

/-- `Image.move_at(p)`: set the image position absolutely. -/
def Image.move_at (img : Image) (p : ℚ × ℚ) : Image :=
  { img with pos := p }

/-- `Image.move(d)`: move the image position relatively. -/
def Image.move (img : Image) (d : ℚ × ℚ) : Image :=
  { img with pos := (img.pos.1 + d.1, img.pos.2 + d.2) }

/-- A single game object (`objects.py` class `Object`).  `managerSet`
models the `Manager` back-reference being non-`None` (the reference
itself would be cyclic; only its null-ness is observable in the claims). -/
structure Object where
  id : Option Nat
  managerSet : Bool
  rigidbody : Option Body
  rigidshape : Option Shape
  image : Image
  spawn : ℚ × ℚ
  size : SizeVal
  shape_type : Nat
  invisible : Bool
  scripts : List Nat
  physics : PhysicsParams
  static : Bool
deriving DecidableEq, Inhabited

/-- The pymunk `Space` owned by a `PhysicsManager`: `space_id` models
Python object identity of the allocated space, `alloc` models the
allocator handing out fresh body/shape identities, `bodies`/`shapes`
are the registered entities, `steps` logs every `space.step(dt)` call. -/
structure Space where
  space_id : Nat
  gravity : ℚ × ℚ
  alloc : Nat
  bodies : List Nat
  shapes : List Nat
  steps : List ℚ
deriving DecidableEq, Inhabited

/-- `PhysicsManager` (`objects.py` lines 21-109): owns one space. -/
structure PhysicsManager where
  space : Space
deriving DecidableEq, Inhabited

/-- `PhysicsManager.__init__`: a fresh empty `pymunk.Space()`.  The
`sid` argument models the identity of the newly allocated space. -/
def PhysicsManager.new (sid : Nat) : PhysicsManager :=
  ⟨⟨sid, (0, 0), 0, [], [], []⟩⟩

/-- `PhysicsManager.update(step)`: `self.space.step(step)` — advances the
external solver; modelled by logging the step delta. -/
def PhysicsManager.update (pm : PhysicsManager) (step : ℚ) : PhysicsManager :=
  { pm with space := { pm.space with steps := pm.space.steps ++ [step] } }

/-- Modelled from the spec: `engine.error` lives in `src/utils.py`, which
is not part of the sources; per spec section 7 an unknown shape kind is a
configuration error "fatal to the operation, reported via a raised error,
not swallowed".  Modelled as an `Except.error` that aborts the operation. -/
def engineError {α : Type} (msg : String) : Except String α :=
  .error msg

/-- `PhysicsManager.add_rect` (`objects.py` lines 62-86): create a body
(STATIC or DYNAMIC per `static`), centre it at `spawn + size/2`, create a
box shape of `size`, copy the physics dict onto the shape, register both
with the space and assign the handles back onto the object.  A scalar
`size` raises `TypeError` in Python at `Object.size[0]` before any
mutation of the space or the object. -/
def PhysicsManager.add_rect (pm : PhysicsManager) (o : Object) (static : Bool)
    (ph : PhysicsParams) : Except String (PhysicsManager × Object) :=
  match o.size with
  | .scalar _ => .error "TypeError: rect size must be a pair"
  | .pair w h =>
    let bt := if static then BodyType.STATIC else BodyType.DYNAMIC
    let rigidbody : Body :=
      { body_id := pm.space.alloc, body_type := bt,
        position := (o.spawn.1 + w / 2, o.spawn.2 + h / 2) }
    let rigidshape : Shape :=
      { shape_id := pm.space.alloc + 1, geom := ShapeGeom.box w h,
        mass := ph.mass, friction := ph.friction,
        elasticity := ph.elasticity, collision_type := ph.collision_type }
    let space :=
      { pm.space with
        alloc := pm.space.alloc + 2
        bodies := pm.space.bodies ++ [rigidbody.body_id]
        shapes := pm.space.shapes ++ [rigidshape.shape_id] }
    .ok (⟨space⟩,
      { o with rigidbody := some rigidbody, rigidshape := some rigidshape })

/-- `PhysicsManager.add_circle` (`objects.py` lines 88-109): create a
body positioned exactly at `spawn`, create a circular shape of radius
`size`, copy the physics dict onto the shape, register both, assign the
handles back.  A pair `size` raises `TypeError` in pymunk's `Circle`
constructor before the space or the object is mutated. -/
def PhysicsManager.add_circle (pm : PhysicsManager) (o : Object) (static : Bool)
    (ph : PhysicsParams) : Except String (PhysicsManager × Object) :=
  match o.size with
  | .pair _ _ => .error "TypeError: circle radius must be a number"
  | .scalar r =>
    let bt := if static then BodyType.STATIC else BodyType.DYNAMIC
    let rigidbody : Body :=
      { body_id := pm.space.alloc, body_type := bt, position := o.spawn }
    let rigidshape : Shape :=
      { shape_id := pm.space.alloc + 1, geom := ShapeGeom.circle r,
        mass := ph.mass, friction := ph.friction,
        elasticity := ph.elasticity, collision_type := ph.collision_type }
    let space :=
      { pm.space with
        alloc := pm.space.alloc + 2
        bodies := pm.space.bodies ++ [rigidbody.body_id]
        shapes := pm.space.shapes ++ [rigidshape.shape_id] }
    .ok (⟨space⟩,
      { o with rigidbody := some rigidbody, rigidshape := some rigidshape })

/-- `PhysicsManager.add` (`objects.py` lines 35-51): dispatch on
`Object.shape_type`; any kind other than 1 (rect) and 2 (circle) is a
fatal `engine.error(RuntimeError("Unknown shape type"))`. -/
def PhysicsManager.add (pm : PhysicsManager) (o : Object) :
    Except String (PhysicsManager × Object) :=
  if o.shape_type = 1 then PhysicsManager.add_rect pm o o.static o.physics
  else if o.shape_type = 2 then PhysicsManager.add_circle pm o o.static o.physics
  else engineError "Unknown shape type"

/-- `Object.add_physics` (`objects.py` lines 389-407): record the physics
dict (with `collision_type` set to the object's shape kind) and the
`static` flag.  Python defaults are `mass=1, friction=0, elasticity=0,
static=False`. -/
def Object.add_physics (o : Object) (mass friction elasticity : ℚ)
    (static : Bool) : Object :=
  { o with physics := ⟨mass, friction, elasticity, o.shape_type⟩,
           static := static }

/-- Shared tail of `Object.__init__`: build the record with null physics
handles, no id, no manager, visible, no scripts, then perform the
constructor's final `self.add_physics(static=True)` call (which uses the
Python defaults `mass=1, friction=0, elasticity=0`).  The `physics` field
given before that call is immediately overwritten by it. -/
def Object.initCore (spawn : ℚ × ℚ) (size : SizeVal) (shape_type : Nat)
    (img : Image) : Object :=
  Object.add_physics
    { id := none, managerSet := false, rigidbody := none, rigidshape := none,
      image := img, spawn := spawn, size := size, shape_type := shape_type,
      invisible := false, scripts := [], physics := ⟨1, 0, 0, shape_type⟩,
      static := false }
    1 0 0 true

/-- `Object.__init__` (`objects.py` lines 249-289): anchor adjustment
`pos - (size, size)` for circles, `pos - size/2` componentwise otherwise;
image sized `2*size` for circles, `size` otherwise, positioned at the
adjusted anchor.  A size/shape mismatch raises `TypeError` in Python
(subtracting a pair as a number, or indexing a number), modelled as
`none`.  Note the `else` branch of the source accepts any non-2 shape
kind, including unknown ones. -/
def Object.init (pos : ℚ × ℚ) (size : SizeVal) (shape_type : Nat) :
    Option Object :=
  if shape_type = 2 then
    match size with
    | .scalar r =>
      let spawn := (pos.1 - r, pos.2 - r)
      some (Object.initCore spawn size shape_type
        ⟨spawn, SizeVal.pair (r * 2) (r * 2), shape_type⟩)
    | .pair _ _ => none
  else
    match size with
    | .pair w h =>
      let spawn := (pos.1 - w / 2, pos.2 - h / 2)
      some (Object.initCore spawn size shape_type ⟨spawn, size, shape_type⟩)
    | .scalar _ => none

/-- `Object.position` (`objects.py` lines 359-366): read the rigidbody
position; for shape kind 1 subtract half the size componentwise; every
other shape kind returns the raw position.  `None` rigidbody raises
`AttributeError` in Python. -/
def Object.position (o : Object) : Option (ℚ × ℚ) :=
  match o.rigidbody with
  | none => none
  | some b =>
    if o.shape_type = 1 then
      match o.size with
      | .pair w h => some (b.position.1 - w / 2, b.position.2 - h / 2)
      | .scalar _ => none
    else some b.position

/-- The spatial-reindex requests `Object.move_at` issues against
`self.Manager.Physics.space` (external acceleration structures). -/
inductive SpaceOp
  | reindexShapesForBody (bid : Nat)
  | reindexStatic
deriving DecidableEq, Inhabited

/-- `Object.move_at` (`objects.py` lines 378-387): write the new position
onto the rigidbody, then `reindex_shapes_for_body` and — short-circuited
on `self.static` — `reindex_static`.  A `None` rigidbody or `None`
manager raises `AttributeError` in Python. -/
def Object.move_at (o : Object) (new_pos : ℚ × ℚ) :
    Option (Object × List SpaceOp) :=
  match o.rigidbody with
  | none => none
  | some b =>
    if o.managerSet then
      some ({ o with rigidbody := some { b with position := new_pos } },
        SpaceOp.reindexShapesForBody b.body_id ::
          (if o.static then [SpaceOp.reindexStatic] else []))
    else none

/-- `Object.move` (`objects.py` lines 368-376): read the current physics
position and delegate to `move_at` with the sum. -/
def Object.move (o : Object) (new_pos : ℚ × ℚ) :
    Option (Object × List SpaceOp) :=
  match o.rigidbody with
  | none => none
  | some b =>
    Object.move_at o (b.position.1 + new_pos.1, b.position.2 + new_pos.2)

/-- The transient debug shape produced by the `hitbox` property:
`Rect(position, size, "red")` or `Circle(position, size, "red")`. -/
inductive HitboxShape
  | rect (pos : ℚ × ℚ) (size : SizeVal) (color : String)
  | circle (pos : ℚ × ℚ) (size : SizeVal) (color : String)
deriving DecidableEq, Inhabited

/-- `Object.hitbox` (`objects.py` lines 347-357): dispatch on the shape
kind; unknown kinds hit `engine.error`, and a failing `position` read
(unregistered object) raises in Python — both modelled as `none`. -/
def Object.hitbox (o : Object) : Option HitboxShape :=
  if o.shape_type = 1 then
    (Object.position o).map (fun p => HitboxShape.rect p o.size "red")
  else if o.shape_type = 2 then
    (Object.position o).map (fun p => HitboxShape.circle p o.size "red")
  else none

/-- A call into the renderer capability: `render.draw_image(image)` or
`render.draw_shape(hitbox, 1)`. -/
inductive DrawCall
  | image (img : Image)
  | shape (hb : HitboxShape) (width : Nat)
deriving DecidableEq, Inhabited

/-- An invocation of a script's `update` hook: which script, the owning
object it is passed (identified by its id), and the frame delta. -/
structure ScriptCall where
  script : Nat
  objId : Option Nat
  dt : ℚ
deriving DecidableEq, Inhabited

/-- `Object.update` (`objects.py` lines 409-419): resync the image to the
rigidbody position, then apply the shape-dependent anchor correction.
The method body contains no script-hook invocation, hence the returned
call list is empty.  A `None` rigidbody raises `AttributeError` in
Python; a size/shape mismatch raises `TypeError`. -/
def Object.update (o : Object) : Option (Object × List ScriptCall) :=
  match o.rigidbody with
  | none => none
  | some b =>
    let img := o.image.move_at b.position
    if o.shape_type = 1 then
      match o.size with
      | .pair w h => some ({ o with image := img.move (-(w / 2), -(h / 2)) }, [])
      | .scalar _ => none
    else if o.shape_type = 2 then
      match o.size with
      | .scalar r => some ({ o with image := img.move (-r, -r) }, [])
      | .pair _ _ => none
    else some ({ o with image := img }, [])

/-- `Object.draw` (`objects.py` lines 421-429): nothing when invisible;
otherwise the image draw, then — short-circuited on the class attribute
`Objects.show_hitbox` (passed here as `showHitbox`) — the hitbox outline
draw with width 1. -/
def Object.draw (showHitbox : Bool) (o : Object) : Option (List DrawCall) :=
  if o.invisible then some []
  else if showHitbox then
    match o.hitbox with
    | none => none
    | some hb => some [DrawCall.image o.image, DrawCall.shape hb 1]
  else some [DrawCall.image o.image]

/-- The `Objects` collection (`objects.py` lines 112-239).  The class
attribute `Objects.show_hitbox` (initialised process-wide from the debug
flag) is passed to operations as an explicit `showHitboxCls : Bool`
parameter; `show_hitbox_inst` models the per-instance attribute that
`self.show_hitbox = ...` creates, shadowing the class attribute
(`none` = no instance attribute yet).  Scene resolution (`__get_scene`,
call-stack introspection) is external: the scene supplies `dt` as an
input to `update`.  `__render` is the render target, not modelled. -/
structure Objects where
  physics : PhysicsManager
  data : List Object
  counter : Nat
  show_hitbox_inst : Option Bool
deriving DecidableEq, Inhabited

/-- `Objects.__init__` inside a scene: a fresh `PhysicsManager`, empty
live sequence, counter 0, no instance-level `show_hitbox` attribute. -/
def Objects.fresh : Objects :=
  ⟨PhysicsManager.new 0, [], 0, none⟩

/-- Result of `Objects.add`: the collection afterwards, the object as
mutated by the call, and whether the call raised. -/
structure AddResult where
  col : Objects
  obj : Object
  raised : Bool
deriving DecidableEq, Inhabited

/-- `Objects.add` (`objects.py` lines 149-162): bump the counter, assign
`Object.id` and the `Manager` back-reference, hand the object to the
`PhysicsManager`, append to the live sequence.  When physics
registration raises, the append never runs (the counter and the
object's id/manager were already mutated). -/
def Objects.add (col : Objects) (o : Object) : AddResult :=
  let counter := col.counter + 1
  let o2 := { o with id := some counter, managerSet := true }
  match PhysicsManager.add col.physics o2 with
  | .ok (pm, o3) =>
    ⟨{ col with physics := pm, counter := counter, data := col.data ++ [o3] },
      o3, false⟩
  | .error _ => ⟨{ col with counter := counter }, o2, true⟩

/-- Helper for `Objects.remove`: Python `list.remove` drops the first
element equal (by identity) to the argument; live objects are identified
by their unique id.  `none` models the `ValueError` raised when the
object is not in the list. -/
def removeFirstById (oid : Nat) : List Object → Option (List Object)
  | [] => none
  | o :: rest =>
    if o.id = some oid then some rest
    else (removeFirstById oid rest).map (fun l => o :: l)

/-- `Objects.remove` (`objects.py` lines 164-174): `self.__data.remove`;
the returned flag records whether Python raised (`ValueError`). -/
def Objects.remove (col : Objects) (oid : Nat) : Objects × Bool :=
  match removeFirstById oid col.data with
  | none => (col, true)
  | some data2 => ({ col with data := data2 }, false)

/-- `Objects.pop` (`objects.py` lines 176-186): `self.__data.pop(index)`;
the flag records the `IndexError` on an out-of-range index. -/
def Objects.pop (col : Objects) (i : Nat) : Objects × Bool :=
  if i < col.data.length then ({ col with data := col.data.eraseIdx i }, false)
  else (col, true)

/-- `Objects.clear` (`objects.py` lines 188-193): replace the
`PhysicsManager` with a freshly allocated one (the new space's identity
is distinct from every earlier one, modelled by bumping `space_id`),
reset the counter, empty the live sequence. -/
def Objects.clear (col : Objects) : Objects :=
  { col with
    physics := PhysicsManager.new (col.physics.space.space_id + 1)
    counter := 0
    data := [] }

/-- `Objects.set_gravity` (`objects.py` lines 195-202). -/
def Objects.set_gravity (col : Objects) (g : ℚ × ℚ) : Objects :=
  { col with physics := ⟨{ col.physics.space with gravity := g }⟩ }

/-- `Objects.toggle_hitbox` (`objects.py` lines 204-206):
`self.show_hitbox = not self.show_hitbox`.  The read falls back to the
class attribute when no instance attribute exists yet; the write always
creates/overwrites the instance attribute and never touches the class
attribute that `Object.draw` consults. -/
def Objects.toggle_hitbox (showHitboxCls : Bool) (col : Objects) : Objects :=
  { col with
    show_hitbox_inst := some (!(col.show_hitbox_inst.getD showHitboxCls)) }

/-- One event of a frame's `Objects.update` pass: the single physics
step, or one live object's own `update`. -/
inductive UpdEvent
  | physicsStep (dt : ℚ)
  | objUpdate (oid : Option Nat)
deriving DecidableEq, Inhabited

/-- Whether an event is the physics step. -/
def UpdEvent.isStep : UpdEvent → Bool
  | .physicsStep _ => true
  | .objUpdate _ => false

/-- Whether an event is a live object's own update. -/
def UpdEvent.isObjUpdate : UpdEvent → Bool
  | .physicsStep _ => false
  | .objUpdate _ => true

/-- The `for obj in self: obj.update()` loop of `Objects.update`,
returning the updated objects and the per-object events in sequence
order; `none` when some object's update raises. -/
def updObjs : List Object → Option (List Object × List UpdEvent)
  | [] => some ([], [])
  | o :: rest =>
    match Object.update o with
    | none => none
    | some (o2, _calls) =>
      match updObjs rest with
      | none => none
      | some (rest2, evs) =>
        some (o2 :: rest2, UpdEvent.objUpdate o.id :: evs)

/-- `Objects.update` (`objects.py` lines 208-213): read the scene's
delta-time, step physics once with it, then update every live object in
sequence order.  Returns the new state and the ordered event list. -/
def Objects.update (col : Objects) (dt : ℚ) :
    Option (Objects × List UpdEvent) :=
  let pm := col.physics.update dt
  match updObjs col.data with
  | none => none
  | some (data2, evs) =>
    some ({ col with physics := pm, data := data2 },
      UpdEvent.physicsStep dt :: evs)

/-- The `for obj in self: obj.draw(render)` loop of `Objects.draw`,
concatenating each object's draw calls in sequence order. -/
def drawAll (showHitbox : Bool) : List Object → Option (List DrawCall)
  | [] => some []
  | o :: rest =>
    match Object.draw showHitbox o with
    | none => none
    | some calls =>
      match drawAll showHitbox rest with
      | none => none
      | some more => some (calls ++ more)

/-- `Objects.draw` (`objects.py` lines 215-218); each `Object.draw`
consults the class attribute `Objects.show_hitbox` (`showHitboxCls`). -/
def Objects.draw (showHitboxCls : Bool) (col : Objects) :
    Option (List DrawCall) :=
  drawAll showHitboxCls col.data

/-- One client operation against an `Objects` collection, as the spec's
lifecycle describes: constructing an `Object` and registering it
(optionally after an explicit `add_physics` call), removal by identity,
`pop`, `clear`, and `move_at` on a live object (named by its id). -/
inductive ColOp
  | add (pos : ℚ × ℚ) (size : SizeVal) (shape_type : Nat)
  | addP (pos : ℚ × ℚ) (size : SizeVal) (shape_type : Nat)
      (mass friction elasticity : ℚ) (static : Bool)
  | remove (oid : Nat)
  | pop (i : Nat)
  | clear
  | moveAt (oid : Nat) (p : ℚ × ℚ)
deriving DecidableEq, Inhabited

/-- Whether an operation is `clear`. -/
def ColOp.isClear : ColOp → Bool
  | .clear => true
  | _ => false

/-- Whether no operation in the list is `clear`. -/
def noClear (ops : List ColOp) : Bool :=
  ops.all (fun op => !op.isClear)

/-- Apply one operation: the collection afterwards, the ids `Objects.add`
assigned during the operation, and whether the operation raised (a raise
propagates to the caller, aborting everything after it). -/
def applyOp (op : ColOp) (col : Objects) : Objects × List Nat × Bool :=
  match op with
  | .add pos size shape_type =>
    match Object.init pos size shape_type with
    | none => (col, [], true)
    | some o =>
      let r := col.add o
      (r.col, [col.counter + 1], r.raised)
  | .addP pos size shape_type m f e s =>
    match Object.init pos size shape_type with
    | none => (col, [], true)
    | some o =>
      let r := col.add (o.add_physics m f e s)
      (r.col, [col.counter + 1], r.raised)
  | .remove oid =>
    let r := col.remove oid
    (r.1, [], r.2)
  | .pop i =>
    let r := col.pop i
    (r.1, [], r.2)
  | .clear => (col.clear, [], false)
  | .moveAt oid p =>
    match col.data.find? (fun o => o.id == some oid) with
    | none => (col, [], false)
    | some o =>
      match o.move_at p with
      | none => (col, [], true)
      | some (o2, _sops) =>
        ({ col with
            data := col.data.map (fun x => if x.id == some oid then o2 else x) },
          [], false)

/-- Run a list of operations from a state, stopping at the first raise;
returns the final state, all assigned ids in order, and the raise flag. -/
def runCol : List ColOp → Objects → Objects × List Nat × Bool
  | [], col => (col, [], false)
  | op :: ops, col =>
    let r := applyOp op col
    if r.2.2 then (r.1, r.2.1, true)
    else
      let r2 := runCol ops r.1
      (r2.1, r.2.1 ++ r2.2.1, r2.2.2)

/-- The consecutive id run `[s, s+1, ..., s+n-1]`. -/
def consecIds : Nat → Nat → List Nat
  | _, 0 => []
  | s, n + 1 => s :: consecIds (s + 1) n

end Pyxora

namespace Legacy

/-- The draft `Object` class of `src/object.py`, restricted to the fields
its `update` method and script machinery touch.  Scripts are identified
by numeric tags; `ObjectScript.update` hook invocations are recorded as
`Pyxora.ScriptCall` values. -/
structure Object where
  id : Option Nat
  scripts : List Nat
  image : Option Pyxora.Image
  rigidbody : Option Pyxora.Body
  size : Pyxora.SizeVal
  shape_type : Nat
deriving DecidableEq, Inhabited

/-- `Object.add_script` (`object.py` lines 178-180): construct the script
bound to this object and append it to the script list. -/
def Object.add_script (o : Object) (s : Nat) : Object :=
  { o with scripts := o.scripts ++ [s] }

/-- `Object.update(dt)` (`object.py` lines 182-189): first call every
attached script's `update(self, dt)` hook in list (= attachment) order,
then resync the image (when present) to the rigidbody position with the
shape-dependent anchor correction. -/
def Object.update (o : Object) (dt : ℚ) :
    Option (Object × List Pyxora.ScriptCall) :=
  let calls := o.scripts.map (fun s => (⟨s, o.id, dt⟩ : Pyxora.ScriptCall))
  match o.image with
  | none => some (o, calls)
  | some img =>
    match o.rigidbody with
    | none => none
    | some b =>
      let img := img.move_at b.position
      if o.shape_type = 1 then
        match o.size with
        | .pair w h =>
          some ({ o with image := some (img.move (-(w / 2), -(h / 2))) }, calls)
        | .scalar _ => none
      else if o.shape_type = 2 then
        match o.size with
        | .scalar r =>
          some ({ o with image := some (img.move (-r, -r)) }, calls)
        | .pair _ _ => none
      else some ({ o with image := some img }, calls)

end Legacy

namespace Pyxora

/-- A rectangular demo object: `Object((10, 20), (4, 6))`. -/
def wRect : Object := (Object.init (10, 20) (.pair 4 6) 1).getD default

/-- A circular demo object: `Object((3, 4), 5, shape_type=2)`. -/
def wCirc : Object := (Object.init (3, 4) (.scalar 5) 2).getD default

/-- A demo object constructed with the unknown shape kind 3: the
constructor's `else` branch accepts it, physics registration rejects it. -/
def wBadShape : Object := (Object.init (0, 0) (.pair 2 2) 3).getD default

/-- Result of registering `wRect` into a fresh collection. -/
def wAdd : AddResult := Objects.fresh.add wRect

/-- A collection holding the one registered rectangle. -/
def wCol : Objects := wAdd.col

/-- The registered rectangle (physics handles assigned, id 1). -/
def wRegRect : Object := wAdd.obj

/-- The registered rectangle with one behavior script attached (appended
through the `scripts` property, the only access `objects.py` offers). -/
def wScripted : Object := { wRegRect with scripts := [7] }

/-- Demo operation list: three registrations with an interleaved `pop`. -/
def wOps : List ColOp :=
  [ColOp.add (10, 20) (.pair 4 6) 1,
   ColOp.add (3, 4) (.scalar 5) 2,
   ColOp.pop 0,
   ColOp.add (0, 0) (.pair 2 2) 1]

/-- The handle-pairing invariant of the spec: `rigidbody` and
`rigidshape` (the collision shape) are both null or both non-null,
never exactly one of them set. -/
def bothOrNeither (o : Object) : Prop :=
  o.rigidbody.isSome = o.rigidshape.isSome

end Pyxora

namespace Legacy

/-- Legacy demo object with one script attached via `add_script`. -/
def wLeg : Object :=
  Object.add_script
    ⟨some 1, [], none, some ⟨0, .STATIC, (10, 20)⟩, .pair 4 6, 1⟩ 7

end Legacy

namespace Pyxora

/-- Helper: whenever `PhysicsManager.add` succeeds, it has assigned both
physics handles on the returned object, with the body kind given by the
`static` flag and the shape parameters copied from the physics dict, and
it has left the object's other fields (id, static flag, physics dict)
unchanged. -/
theorem physicsAdd_ok_spec (pm pm2 : PhysicsManager) (o o2 : Object)
    (h : PhysicsManager.add pm o = .ok (pm2, o2)) :
    ∃ b s, o2.rigidbody = some b ∧ o2.rigidshape = some s ∧
      b.body_type = (if o.static then BodyType.STATIC else BodyType.DYNAMIC) ∧
      s.mass = o.physics.mass ∧ s.friction = o.physics.friction ∧
      s.elasticity = o.physics.elasticity ∧
      s.collision_type = o.physics.collision_type ∧
      o2.id = o.id ∧ o2.static = o.static ∧ o2.physics = o.physics := by
  unfold PhysicsManager.add PhysicsManager.add_rect PhysicsManager.add_circle
    engineError at h
  split at h
  · split at h
    · simp at h
    · rw [Except.ok.injEq, Prod.mk.injEq] at h
      obtain ⟨h1, h2⟩ := h
      subst h2
      exact ⟨_, _, rfl, rfl, rfl, rfl, rfl, rfl, rfl, rfl, rfl, rfl⟩
  · split at h
    · split at h
      · simp at h
      · rw [Except.ok.injEq, Prod.mk.injEq] at h
        obtain ⟨h1, h2⟩ := h
        subst h2
        exact ⟨_, _, rfl, rfl, rfl, rfl, rfl, rfl, rfl, rfl, rfl, rfl⟩
    · simp at h

/-- C4: `Objects.add` is atomic with respect to the live sequence: when
physics registration raises, the live sequence afterwards equals the one
from before (no append); and a shape kind that is neither rect (1) nor
circle (2) always makes registration raise. -/
theorem add_is_atomic_on_physics_failure (col : Objects) (o : Object) :
    ((col.add o).raised = true → (col.add o).col.data = col.data) ∧
    (o.shape_type ≠ 1 → o.shape_type ≠ 2 → (col.add o).raised = true) := by
  constructor
  · intro h
    simp only [Objects.add] at h ⊢
    split at h
    · simp_all
    · simp_all
  · intro h1 h2
    simp only [Objects.add]
    split
    · next pm2 o3 heq =>
        rw [PhysicsManager.add] at heq
        simp [h1, h2, engineError] at heq
    · rfl

/-- C4 witness: registering an object of the unknown shape kind 3 into a
fresh collection raises and leaves the live sequence empty. -/
theorem add_is_atomic_on_physics_failure_witness :
    (Objects.fresh.add wBadShape).col.data = Objects.fresh.data :=
  (add_is_atomic_on_physics_failure Objects.fresh wBadShape).1
    ((add_is_atomic_on_physics_failure Objects.fresh wBadShape).2
      (by simp [wBadShape, Object.init, Object.initCore, Object.add_physics])
      (by simp [wBadShape, Object.init, Object.initCore, Object.add_physics]))

/-- C5: for a registered object, `move_at (x, y)` followed immediately by
the `position` query returns the written position adjusted by the
shape-specific anchor correction: `(x - w/2, y - h/2)` for a rectangle of
size `(w, h)`, and exactly `(x, y)` for a circle. -/
theorem move_at_position_roundtrip (o : Object) (b : Body) (x y : ℚ)
    (hb : o.rigidbody = some b) (hm : o.managerSet = true) :
    (∀ w h, o.shape_type = 1 → o.size = .pair w h →
      (o.move_at (x, y)).bind (fun r => r.1.position) =
        some (x - w / 2, y - h / 2)) ∧
    (o.shape_type = 2 →
      (o.move_at (x, y)).bind (fun r => r.1.position) = some (x, y)) := by
  constructor
  · intro w h h1 hs
    simp [Object.move_at, Object.position, hb, hm, h1, hs]
  · intro h2
    simp [Object.move_at, Object.position, hb, hm, h2]

/-- C5 witness: the registered demo rectangle of size (4, 6), moved to
(10, 20), reports position (8, 17). -/
theorem move_at_position_roundtrip_witness :
    (wRegRect.move_at (10, 20)).bind (fun r => r.1.position) =
      some (10 - 4 / 2, 20 - 6 / 2) :=
  (move_at_position_roundtrip wRegRect ⟨0, .STATIC, (10, 20)⟩ 10 20
      (by simp [wRegRect, wAdd, wRect, Objects.fresh, Objects.add,
        Object.init, Object.initCore, Object.add_physics,
        PhysicsManager.add, PhysicsManager.add_rect, PhysicsManager.new])
      (by simp [wRegRect, wAdd, wRect, Objects.fresh, Objects.add,
        Object.init, Object.initCore, Object.add_physics,
        PhysicsManager.add, PhysicsManager.add_rect, PhysicsManager.new])).1
    4 6
    (by simp [wRegRect, wAdd, wRect, Objects.fresh, Objects.add,
      Object.init, Object.initCore, Object.add_physics,
      PhysicsManager.add, PhysicsManager.add_rect, PhysicsManager.new])
    (by simp [wRegRect, wAdd, wRect, Objects.fresh, Objects.add,
      Object.init, Object.initCore, Object.add_physics,
      PhysicsManager.add, PhysicsManager.add_rect, PhysicsManager.new])

/-- C8: `PhysicsManager.add` on a rectangle creates a body (STATIC or
DYNAMIC per the object's `static` flag) centred at `spawn + size/2` and a
box shape sized to `size`; on a circle, a body exactly at `spawn` and a
circular shape of radius `size`.  In both cases the extra physics
parameters are copied onto the shape, body and shape identities are
registered with the space, and the created handles are assigned back
onto the object. -/
theorem physics_add_creates_body_and_shape (pm : PhysicsManager)
    (o : Object) :
    (∀ w h, o.shape_type = 1 → o.size = .pair w h →
      PhysicsManager.add pm o =
        .ok (⟨{ pm.space with
                alloc := pm.space.alloc + 2
                bodies := pm.space.bodies ++ [pm.space.alloc]
                shapes := pm.space.shapes ++ [pm.space.alloc + 1] }⟩,
          { o with
            rigidbody := some
              ⟨pm.space.alloc,
                if o.static then BodyType.STATIC else BodyType.DYNAMIC,
                (o.spawn.1 + w / 2, o.spawn.2 + h / 2)⟩
            rigidshape := some
              ⟨pm.space.alloc + 1, ShapeGeom.box w h, o.physics.mass,
                o.physics.friction, o.physics.elasticity,
                o.physics.collision_type⟩ })) ∧
    (∀ r, o.shape_type = 2 → o.size = .scalar r →
      PhysicsManager.add pm o =
        .ok (⟨{ pm.space with
                alloc := pm.space.alloc + 2
                bodies := pm.space.bodies ++ [pm.space.alloc]
                shapes := pm.space.shapes ++ [pm.space.alloc + 1] }⟩,
          { o with
            rigidbody := some
              ⟨pm.space.alloc,
                if o.static then BodyType.STATIC else BodyType.DYNAMIC,
                o.spawn⟩
            rigidshape := some
              ⟨pm.space.alloc + 1, ShapeGeom.circle r, o.physics.mass,
                o.physics.friction, o.physics.elasticity,
                o.physics.collision_type⟩ })) := by
  constructor
  · intro w h h1 hs
    simp [PhysicsManager.add, PhysicsManager.add_rect, h1, hs]
  · intro r h2 hs
    simp [PhysicsManager.add, PhysicsManager.add_circle, h2, hs]

/-- C8 witness: registering the demo rectangle with a fresh manager. -/
theorem physics_add_creates_body_and_shape_witness :
    PhysicsManager.add (PhysicsManager.new 0) wRect =
      .ok (⟨{ (PhysicsManager.new 0).space with
              alloc := (PhysicsManager.new 0).space.alloc + 2
              bodies := (PhysicsManager.new 0).space.bodies ++
                [(PhysicsManager.new 0).space.alloc]
              shapes := (PhysicsManager.new 0).space.shapes ++
                [(PhysicsManager.new 0).space.alloc + 1] }⟩,
        { wRect with
          rigidbody := some
            ⟨(PhysicsManager.new 0).space.alloc,
              if wRect.static then BodyType.STATIC else BodyType.DYNAMIC,
              (wRect.spawn.1 + 4 / 2, wRect.spawn.2 + 6 / 2)⟩
          rigidshape := some
            ⟨(PhysicsManager.new 0).space.alloc + 1, ShapeGeom.box 4 6,
              wRect.physics.mass, wRect.physics.friction,
              wRect.physics.elasticity, wRect.physics.collision_type⟩ }) :=
  (physics_add_creates_body_and_shape (PhysicsManager.new 0) wRect).1 4 6
    (by simp [wRect, Object.init, Object.initCore, Object.add_physics])
    (by simp [wRect, Object.init, Object.initCore, Object.add_physics])

/-- C9: after `clear` the live sequence is empty, the collection owns a
fresh `PhysicsManager` whose space is empty and whose identity differs
from the previous space, the counter is 0, and the next `add` assigns
id 1 again. -/
theorem clear_resets_collection (col : Objects) (o : Object) :
    col.clear.data = [] ∧
    col.clear.physics.space.bodies = [] ∧
    col.clear.physics.space.shapes = [] ∧
    col.clear.physics.space.space_id ≠ col.physics.space.space_id ∧
    col.clear.counter = 0 ∧
    (col.clear.add o).obj.id = some 1 := by
  refine ⟨rfl, rfl, rfl, by simp [Objects.clear, PhysicsManager.new], rfl, ?_⟩
  simp only [Objects.add, Objects.clear]
  split
  · next pm2 o3 heq =>
      have h3 := physicsAdd_ok_spec _ _ _ _ heq
      obtain ⟨b, s, -, -, -, -, -, -, -, hid, -, -⟩ := h3
      simp_all
  · simp

/-- C10: every `Object` constructor call ends in `add_physics(static=True)`
with the Python defaults, so for an object whose physics were never set
explicitly, collection registration creates a STATIC body and a shape
with mass 1, friction 0, elasticity 0, and a collision-type tag equal to
the object's shape kind. -/
theorem default_registration_is_static (pos : ℚ × ℚ) (size : SizeVal)
    (st : Nat) (o : Object) (h : Object.init pos size st = some o) :
    o.physics = ⟨1, 0, 0, st⟩ ∧ o.static = true ∧
    (∀ col : Objects, (col.add o).raised = false →
      ∃ (b : Body) (s : Shape), (col.add o).obj.rigidbody = some b ∧
        (col.add o).obj.rigidshape = some s ∧
        b.body_type = BodyType.STATIC ∧ s.mass = 1 ∧ s.friction = 0 ∧
        s.elasticity = 0 ∧ s.collision_type = st) := by
  have hcore : o.physics = ⟨1, 0, 0, st⟩ ∧ o.static = true := by
    unfold Object.init at h
    split at h
    · split at h
      · simp only [Option.some.injEq] at h
        subst h
        simp [Object.initCore, Object.add_physics]
      · simp at h
    · split at h
      · simp only [Option.some.injEq] at h
        subst h
        simp [Object.initCore, Object.add_physics]
      · simp at h
  refine ⟨hcore.1, hcore.2, ?_⟩
  intro col hr
  simp only [Objects.add] at hr ⊢
  split at hr
  · next pm2 o3 heq =>
      obtain ⟨b, s, hb, hs, hbt, hm, hf, he, hct, -, hst, hph⟩ :=
        physicsAdd_ok_spec _ _ _ _ heq
      refine ⟨b, s, hb, hs, ?_, ?_, ?_, ?_, ?_⟩
      · rw [hbt]
        simp [hcore.2]
      · rw [hm]
        simp [hcore.1]
      · rw [hf]
        simp [hcore.1]
      · rw [he]
        simp [hcore.1]
      · rw [hct]
        simp [hcore.1]
  · simp at hr

/-- C1 (code-bug evidence): in `objects.py` a frame update of an object
carrying one attached script invokes no script `update` hook at all —
the hook-call list of `Object.update` is empty — whereas the legacy
`object.py` version of `Object.update` invokes each attached script's
hook with the owning object and the frame's delta-time, in attachment
order. -/
theorem objects_update_runs_no_script_hooks :
    wScripted.scripts = [7] ∧
    (Object.update wScripted).map Prod.snd = some [] ∧
    (Legacy.Object.update Legacy.wLeg (1 / 2)).map Prod.snd =
      some [⟨7, some 1, 1 / 2⟩] := by
  refine ⟨rfl, ?_, ?_⟩
  · simp [Object.update, wScripted, wRegRect, wAdd, wRect, Objects.fresh,
      Objects.add, Object.init, Object.initCore, Object.add_physics,
      PhysicsManager.add, PhysicsManager.add_rect, PhysicsManager.new,
      Image.move_at, Image.move]
  · simp [Legacy.Object.update, Legacy.wLeg, Legacy.Object.add_script]

/-- C2 (code-bug evidence): with the class-level `Objects.show_hitbox`
flag disabled, one `toggle_hitbox` call flips only the per-instance
attribute; the next draw pass of a collection holding one visible object
still issues exactly the image draw and zero hitbox outlines, because
`Object.draw` consults the class attribute, which `toggle_hitbox` never
modifies. -/
theorem toggle_hitbox_has_no_effect_on_draw :
    (Objects.toggle_hitbox false wCol).show_hitbox_inst = some true ∧
    Objects.draw false (Objects.toggle_hitbox false wCol) =
      some [DrawCall.image wRegRect.image] ∧
    Objects.draw false wCol = some [DrawCall.image wRegRect.image] := by
  refine ⟨?_, ?_, ?_⟩
  · simp [Objects.toggle_hitbox, wCol, wAdd, wRect, Objects.fresh,
      Objects.add, Object.init, Object.initCore, Object.add_physics,
      PhysicsManager.add, PhysicsManager.add_rect, PhysicsManager.new]
  · simp [Objects.draw, Objects.toggle_hitbox, drawAll, Object.draw,
      wRegRect, wCol, wAdd, wRect, Objects.fresh, Objects.add,
      Object.init, Object.initCore, Object.add_physics,
      PhysicsManager.add, PhysicsManager.add_rect, PhysicsManager.new]
  · simp [Objects.draw, drawAll, Object.draw, wRegRect, wCol, wAdd,
      wRect, Objects.fresh, Objects.add, Object.init, Object.initCore,
      Object.add_physics, PhysicsManager.add, PhysicsManager.add_rect,
      PhysicsManager.new]

/-- Helper: every event produced by the object-update loop is an
object-update event, never a physics step. -/
theorem updObjs_no_step (os os2 : List Object) (evs : List UpdEvent)
    (h : updObjs os = some (os2, evs)) : ∀ e ∈ evs, e.isStep = false := by
  induction os generalizing os2 evs with
  | nil =>
    simp only [updObjs, Option.some.injEq, Prod.mk.injEq] at h
    obtain ⟨-, h2⟩ := h
    subst h2
    simp
  | cons o rest ih =>
    simp only [updObjs] at h
    split at h
    · exact absurd h (by simp)
    · next o2 calls heq =>
      split at h
      · exact absurd h (by simp)
      · next rest2 evs2 heq2 =>
        simp only [Option.some.injEq, Prod.mk.injEq] at h
        obtain ⟨-, h2⟩ := h
        subst h2
        intro e he
        rcases List.mem_cons.mp he with rfl | hmem
        · rfl
        · exact ih rest2 evs2 heq2 e hmem

/-- Helper: a list of events none of which is the physics step filters
to the empty list under `isStep`. -/
theorem filter_isStep_nil (evs : List UpdEvent)
    (hall : ∀ e ∈ evs, e.isStep = false) :
    evs.filter UpdEvent.isStep = [] := by
  induction evs with
  | nil => rfl
  | cons e rest ih =>
    rw [List.filter_cons, hall e (List.mem_cons_self e rest)]
    exact ih (fun x hx => hall x (List.mem_cons_of_mem e hx))

/-- C3: every invocation of the collection's `update` steps the physics
space exactly once, with the frame's scene-supplied delta-time, and the
step precedes the update of every live object: in the event trace the
only physics-step event is the head, every object-update event sits at a
strictly positive index, and the space's step log grows by exactly that
delta. -/
theorem update_steps_physics_once_before_object_updates
    (col : Objects) (dt : ℚ) (h : (col.update dt).isSome = true) :
    ((col.update dt).getD default).2.filter UpdEvent.isStep =
      [UpdEvent.physicsStep dt] ∧
    ((col.update dt).getD default).1.physics.space.steps =
      col.physics.space.steps ++ [dt] ∧
    (∀ i, i < ((col.update dt).getD default).2.length →
      (((col.update dt).getD default).2.getD i default).isObjUpdate = true →
      0 < i) ∧
    ((col.update dt).getD default).2.getD 0 default =
      UpdEvent.physicsStep dt := by
  rcases hu : updObjs col.data with - | ⟨d2, evs⟩
  · rw [Objects.update, hu] at h
    simp at h
  · have hres : col.update dt =
        some ({ col with physics := col.physics.update dt, data := d2 },
          UpdEvent.physicsStep dt :: evs) := by
      rw [Objects.update, hu]
    rw [hres]
    simp only [Option.getD_some]
    refine ⟨?_, ?_, ?_, rfl⟩
    · rw [List.filter_cons]
      have hstep : UpdEvent.isStep (UpdEvent.physicsStep dt) = true := rfl
      rw [hstep, filter_isStep_nil evs (updObjs_no_step col.data d2 evs hu)]
      simp
    · simp [PhysicsManager.update]
    · intro i hi hobj
      match i with
      | 0 => exact absurd hobj (by simp [UpdEvent.isObjUpdate])
      | j + 1 => exact Nat.succ_pos j

/-- C3 witness: one frame of the demo collection with dt = 1. -/
theorem update_steps_physics_once_before_object_updates_witness :
    ((wCol.update 1).getD default).2.filter UpdEvent.isStep =
      [UpdEvent.physicsStep 1] :=
  (update_steps_physics_once_before_object_updates wCol 1
    (by simp [wCol, wAdd, wRect, Objects.fresh, Objects.add, Objects.update,
      updObjs, Object.update, Object.init, Object.initCore,
      Object.add_physics, PhysicsManager.add, PhysicsManager.add_rect,
      PhysicsManager.new, PhysicsManager.update, Image.move_at,
      Image.move])).1

/-- C10 witness: the demo rectangle was built without any explicit
`add_physics` call, and its recorded physics are the defaults. -/
theorem default_registration_is_static_witness :
    wRect.physics = ⟨1, 0, 0, 1⟩ :=
  (default_registration_is_static (10, 20) (.pair 4 6) 1 wRect
    (by simp [wRect, Object.init, Object.initCore, Object.add_physics])).1

/-- Helper: `Objects.add` always bumps the counter by one, also when
physics registration raises. -/
theorem add_counter (col : Objects) (o : Object) :
    (col.add o).col.counter = col.counter + 1 := by
  simp only [Objects.add]
  split
  · rfl
  · rfl

/-- Helper: `Objects.add` either raises and leaves the live sequence
unchanged, or appends exactly the registered object, which then carries
both physics handles. -/
theorem add_cases (col : Objects) (o : Object) :
    ((col.add o).raised = true ∧ (col.add o).col.data = col.data) ∨
    ((col.add o).raised = false ∧
      (col.add o).col.data = col.data ++ [(col.add o).obj] ∧
      (col.add o).obj.rigidbody.isSome = true ∧
      (col.add o).obj.rigidshape.isSome = true) := by
  simp only [Objects.add]
  split
  · next pm2 o3 heq =>
      right
      obtain ⟨b, s, hb, hs, -, -, -, -, -, -, -, -⟩ :=
        physicsAdd_ok_spec _ _ _ _ heq
      exact ⟨rfl, rfl, by simp [hb], by simp [hs]⟩
  · left
    exact ⟨rfl, rfl⟩

/-- Helper: `consecIds` has the stated length. -/
theorem consecIds_length (n s : Nat) : (consecIds s n).length = n := by
  induction n generalizing s with
  | zero => rfl
  | succ k ih => simp [consecIds, ih]

/-- Helper: two adjacent consecutive runs concatenate. -/
theorem consecIds_append (m s n : Nat) :
    consecIds s m ++ consecIds (s + m) n = consecIds s (m + n) := by
  induction m generalizing s with
  | zero => simp [consecIds]
  | succ k ih =>
    simp only [consecIds, List.cons_append]
    rw [show s + (k + 1) = (s + 1) + k by omega, ih (s + 1),
      show k + 1 + n = (k + n) + 1 by omega]
    rfl

/-- Helper: members of a consecutive run are bounded below by its start. -/
theorem consecIds_lb (n s m : Nat) (h : m ∈ consecIds s n) : s ≤ m := by
  induction n generalizing s with
  | zero => exact absurd h (by simp [consecIds])
  | succ k ih =>
    rcases List.mem_cons.mp h with rfl | hmem
    · exact Nat.le_refl m
    · exact Nat.le_of_succ_le (ih (s + 1) hmem)

/-- Helper: a consecutive run is strictly increasing. -/
theorem consecIds_pairwise (n s : Nat) :
    List.Pairwise (· < ·) (consecIds s n) := by
  induction n generalizing s with
  | zero => exact List.Pairwise.nil
  | succ k ih =>
    refine List.pairwise_cons.mpr ⟨?_, ih (s + 1)⟩
    intro m hm
    exact Nat.lt_of_succ_le (consecIds_lb k (s + 1) m hm)

/-- Helper: a single non-clear operation assigns exactly the ids
`counter+1, ...` (possibly none) and bumps the counter by their count. -/
theorem applyOp_ids (op : ColOp) (col : Objects) (hnc : op.isClear = false) :
    (applyOp op col).2.1 =
      consecIds (col.counter + 1) (applyOp op col).2.1.length ∧
    (applyOp op col).1.counter =
      col.counter + (applyOp op col).2.1.length := by
  cases op with
  | add pos size st =>
    rcases ho : Object.init pos size st with - | o0
    · simp [applyOp, ho, consecIds]
    · refine ⟨by simp [applyOp, ho, consecIds], ?_⟩
      simp only [applyOp, ho, List.length_singleton]
      exact add_counter col o0
  | addP pos size st m f e s =>
    rcases ho : Object.init pos size st with - | o0
    · simp [applyOp, ho, consecIds]
    · refine ⟨by simp [applyOp, ho, consecIds], ?_⟩
      simp only [applyOp, ho, List.length_singleton]
      exact add_counter col (o0.add_physics m f e s)
  | remove oid =>
    rcases hr : removeFirstById oid col.data with - | d2 <;>
      simp [applyOp, Objects.remove, hr, consecIds]
  | pop i =>
    simp only [applyOp, Objects.pop]
    split <;> simp [consecIds]
  | clear => exact absurd hnc (by simp [ColOp.isClear])
  | moveAt oid p =>
    rcases hf : col.data.find? (fun o => o.id == some oid) with - | o0
    · simp [applyOp, hf, consecIds]
    · rcases hm : o0.move_at p with - | ⟨o2, sops⟩ <;>
        simp [applyOp, hf, hm, consecIds]

/-- Helper: along any clear-free operation sequence the assigned ids are
the consecutive run starting right after the initial counter. -/
theorem runCol_ids (ops : List ColOp) (col : Objects)
    (h : noClear ops = true) :
    (runCol ops col).2.1 =
      consecIds (col.counter + 1) (runCol ops col).2.1.length ∧
    ((runCol ops col).2.2 = false →
      (runCol ops col).1.counter =
        col.counter + (runCol ops col).2.1.length) := by
  induction ops generalizing col with
  | nil => simp [runCol, consecIds]
  | cons op rest ih =>
    have hop : op.isClear = false := by
      simp only [noClear, List.all_cons, Bool.and_eq_true] at h
      simpa using h.1
    have hrest : noClear rest = true := by
      simp only [noClear, List.all_cons, Bool.and_eq_true] at h
      exact h.2
    have hids := applyOp_ids op col hop
    rcases happ : applyOp op col with ⟨col1, ids1, r1⟩
    rw [happ] at hids
    dsimp only at hids
    obtain ⟨hids1, hids2⟩ := hids
    simp only [runCol, happ]
    cases r1 with
    | true => exact ⟨hids1, by simp⟩
    | false =>
      simp only [Bool.false_eq_true, if_false]
      obtain ⟨ih1, ih2⟩ := ih col1 hrest
      constructor
      · rw [List.length_append]
        conv_lhs => rw [hids1, ih1]
        rw [hids2, show col.counter + ids1.length + 1 =
          (col.counter + 1) + ids1.length from by omega]
        rw [consecIds_append]
      · intro hr2
        rw [List.length_append, ih2 hr2, hids2]
        omega

/-- C6: along any clear-free operation sequence, the ids assigned by the
collection's `add` calls form the consecutive run `counter+1, counter+2,
...` — hence they are strictly increasing and pairwise distinct,
regardless of interleaved `remove`/`pop` calls, and an id is never
reused after its object's removal. -/
theorem add_ids_consecutive (ops : List ColOp) (col : Objects)
    (h : noClear ops = true) :
    (runCol ops col).2.1 =
      consecIds (col.counter + 1) (runCol ops col).2.1.length ∧
    List.Pairwise (· < ·) (runCol ops col).2.1 ∧
    (runCol ops col).2.1.Nodup := by
  obtain ⟨h1, -⟩ := runCol_ids ops col h
  refine ⟨h1, ?_, ?_⟩
  · rw [h1]
    exact consecIds_pairwise _ _
  · rw [h1]
    exact List.Pairwise.imp (fun hlt => Nat.ne_of_lt hlt)
      (consecIds_pairwise _ _)

/-- C6 witness: three registrations with an interleaved `pop` on a fresh
collection assign exactly the ids 1, 2, 3. -/
theorem add_ids_consecutive_witness :
    (runCol wOps Objects.fresh).2.1 =
      consecIds (Objects.fresh.counter + 1)
        (runCol wOps Objects.fresh).2.1.length :=
  (add_ids_consecutive wOps Objects.fresh (by rfl)).1

/-- Helper: removal by identity only ever drops an element — every
survivor was in the original list. -/
theorem removeFirstById_mem (oid : Nat) (l l2 : List Object)
    (h : removeFirstById oid l = some l2) : ∀ x ∈ l2, x ∈ l := by
  induction l generalizing l2 with
  | nil => exact absurd h (by simp [removeFirstById])
  | cons o rest ih =>
    simp only [removeFirstById] at h
    split at h
    · simp only [Option.some.injEq] at h
      subst h
      intro x hx
      exact List.mem_cons_of_mem o hx
    · rcases hrem : removeFirstById oid rest with - | r2
      · rw [hrem] at h
        exact absurd h (by simp)
      · rw [hrem] at h
        simp only [Option.map] at h
        simp only [Option.some.injEq] at h
        subst h
        intro x hx
        rcases List.mem_cons.mp hx with rfl | hx2
        · exact List.mem_cons_self x rest
        · exact List.mem_cons_of_mem o (ih r2 hrem x hx2)

/-- Helper: a successful `move_at` keeps the rigidbody handle set and
does not touch the collision-shape handle; it also certifies that the
input object's rigidbody was set. -/
theorem move_at_handles (o o2 : Object) (p : ℚ × ℚ) (sops : List SpaceOp)
    (h : o.move_at p = some (o2, sops)) :
    o2.rigidbody.isSome = true ∧ o2.rigidshape = o.rigidshape ∧
      o.rigidbody.isSome = true := by
  unfold Object.move_at at h
  split at h
  · exact absurd h (by simp)
  · next b hb =>
    split at h
    · simp only [Option.some.injEq, Prod.mk.injEq] at h
      obtain ⟨h1, -⟩ := h
      subst h1
      simp [hb]
    · exact absurd h (by simp)

/-- Helper: every collection operation preserves the handle-pairing
invariant of all live objects. -/
theorem applyOp_inv (op : ColOp) (col : Objects)
    (hinv : ∀ o ∈ col.data, bothOrNeither o) :
    ∀ o ∈ (applyOp op col).1.data, bothOrNeither o := by
  cases op with
  | add pos size st =>
    rcases ho : Object.init pos size st with - | o0
    · simpa [applyOp, ho] using hinv
    · simp only [applyOp, ho]
      intro o hmem
      rcases add_cases col o0 with ⟨-, hdata⟩ | ⟨-, hdata, hb, hs⟩
      · rw [hdata] at hmem
        exact hinv o hmem
      · rw [hdata] at hmem
        rcases List.mem_append.mp hmem with hmem2 | hmem2
        · exact hinv o hmem2
        · rw [List.mem_singleton.mp hmem2]
          unfold bothOrNeither
          rw [hb, hs]
  | addP pos size st m f e s =>
    rcases ho : Object.init pos size st with - | o0
    · simpa [applyOp, ho] using hinv
    · simp only [applyOp, ho]
      intro o hmem
      rcases add_cases col (o0.add_physics m f e s) with
        ⟨-, hdata⟩ | ⟨-, hdata, hb, hs⟩
      · rw [hdata] at hmem
        exact hinv o hmem
      · rw [hdata] at hmem
        rcases List.mem_append.mp hmem with hmem2 | hmem2
        · exact hinv o hmem2
        · rw [List.mem_singleton.mp hmem2]
          unfold bothOrNeither
          rw [hb, hs]
  | remove oid =>
    rcases hr : removeFirstById oid col.data with - | d2
    · simpa [applyOp, Objects.remove, hr] using hinv
    · simp only [applyOp, Objects.remove, hr]
      intro o hmem
      exact hinv o (removeFirstById_mem oid col.data d2 hr o hmem)
  | pop i =>
    simp only [applyOp, Objects.pop]
    split
    · intro o hmem
      exact hinv o ((List.eraseIdx_sublist col.data i).mem hmem)
    · exact hinv
  | clear => simp [applyOp, Objects.clear]
  | moveAt oid p =>
    rcases hf : col.data.find? (fun o => o.id == some oid) with - | o0
    · simpa [applyOp, hf] using hinv
    · rcases hm : o0.move_at p with - | ⟨o2, sops⟩
      · simpa [applyOp, hf, hm] using hinv
      · simp only [applyOp, hf, hm]
        intro o hmem
        rcases List.mem_map.mp hmem with ⟨x, hx, hxo⟩
        by_cases hxid : (x.id == some oid) = true
        · rw [if_pos hxid] at hxo
          rw [← hxo]
          obtain ⟨hb2, hs2, hb0⟩ := move_at_handles o0 o2 p sops hm
          have h0 := hinv o0 (List.mem_of_find?_eq_some hf)
          unfold bothOrNeither at h0 ⊢
          rw [hb2, hs2, ← h0, hb0]
        · rw [if_neg hxid] at hxo
          rw [← hxo]
          exact hinv x hx

/-- C7: along every operation sequence (construction, registration via
`add`, removal, `pop`, `clear`, moves) the physics handles of every live
object are both null or both non-null — never exactly one set; and a
freshly constructed object has both handles null. -/
theorem handles_both_null_or_both_set (ops : List ColOp) (col : Objects)
    (hinv : ∀ o ∈ col.data, bothOrNeither o) :
    (∀ o ∈ (runCol ops col).1.data, bothOrNeither o) ∧
    (∀ pos size st o2, Object.init pos size st = some o2 →
      o2.rigidbody = none ∧ o2.rigidshape = none) := by
  constructor
  · induction ops generalizing col with
    | nil => simpa [runCol] using hinv
    | cons op rest ih =>
      simp only [runCol]
      split
      · exact applyOp_inv op col hinv
      · exact ih (applyOp op col).1 (applyOp_inv op col hinv)
  · intro pos size st o2 h
    unfold Object.init at h
    split at h
    · split at h
      · simp only [Option.some.injEq] at h
        subst h
        simp [Object.initCore, Object.add_physics]
      · exact absurd h (by simp)
    · split at h
      · simp only [Option.some.injEq] at h
        subst h
        simp [Object.initCore, Object.add_physics]
      · exact absurd h (by simp)

/-- C7 witness: the demo rectangle, never registered, has both handles
null (second part of the invariant, at a concrete constructor call). -/
theorem handles_both_null_or_both_set_witness :
    wRect.rigidbody = none ∧ wRect.rigidshape = none :=
  (handles_both_null_or_both_set [] Objects.fresh (by simp [Objects.fresh])).2
    (10, 20) (.pair 4 6) 1 wRect
    (by simp [wRect, Object.init, Object.initCore, Object.add_physics])

end Pyxora
